import Mathlib

/-
Verification of the go-aws-msg SQS adapter against its specification.

The development shallowly embeds the two source files:
  src/sqs/topic.go       - Topic / MessageWriter (producer side)
  src/unnamed/part_000   - Server: Serve, Shutdown, DefaultRetryer, NewServer

Modelling conventions:
  Go maps are association lists; Go pointers that may be nil are Option;
  Go error values are Option String with none for nil; time.Duration is an
  integer count of nanoseconds; float64 seconds are exact rationals.
  Stateful methods become pure state transformers, and the two select
  loops (Serve, Shutdown) are driven by an explicit trace of the events
  each select iteration observes.
-/

namespace GoAwsMsg

/-- Error values surfaced by the message writer: the distinguished
msg.ErrClosedMessageWriter sentinel, or the error of the SQS send call. -/
inductive WriterError where
  | errClosedMessageWriter
  | sendError (e : String)
  deriving DecidableEq

/-- SQS message attribute value as built by buildSQSAttributes
(src/sqs/topic.go lines 137-147): a data type tag and a string value. -/
structure MessageAttributeValue where
  dataType : String
  stringValue : String
  deriving DecidableEq

/-- SQS SendMessageInput as assembled by MessageWriter.Close
(src/sqs/topic.go lines 114-122). -/
structure SendMessageInput where
  delaySeconds : Int
  messageBody : String
  queueUrl : String
  messageAttributes : List (String × MessageAttributeValue)
  deriving DecidableEq

/-- buildSQSAttributes (src/sqs/topic.go lines 137-147): converts
msg.Attributes into SQS message attributes, joining each value list with
commas and tagging it with the String data type. -/
def buildSQSAttributes (a : List (String × List String)) :
    List (String × MessageAttributeValue) :=
  a.map (fun kv => (kv.1, ⟨"String", String.intercalate (",") kv.2⟩))

/-- MessageWriter state (src/sqs/topic.go lines 64-81): attribute map,
buffer, closed flag, delay and queue URL. The per-writer mutex is not
modelled; each method is one atomic state transition. -/
structure MessageWriter where
  attributes : List (String × List String)
  buf : String
  closed : Bool
  delaySeconds : Int
  queueURL : String
  deriving DecidableEq

/-- NewWriter (src/sqs/topic.go lines 53-61): a fresh open writer with an
empty attribute map and an empty buffer. -/
def NewWriter (queueURL : String) : MessageWriter :=
  { attributes := [], buf := "", closed := false, delaySeconds := 0,
    queueURL := queueURL }

/-- Write (src/sqs/topic.go lines 91-99): rejected with
msg.ErrClosedMessageWriter on a closed writer, otherwise appends to the
buffer and returns the byte count with a nil error. -/
def MessageWriter.Write (w : MessageWriter) (p : String) :
    MessageWriter × Nat × Option WriterError :=
  if w.closed then
    (w, 0, some .errClosedMessageWriter)
  else
    ({ w with buf := w.buf ++ p }, p.length, none)

/-- SendMessageInput built by Close from the writer state
(src/sqs/topic.go lines 114-122): message attributes are attached only when
the attribute map is non-empty. -/
def MessageWriter.sendParams (w : MessageWriter) : SendMessageInput :=
  { delaySeconds := w.delaySeconds
    messageBody := w.buf
    queueUrl := w.queueURL
    messageAttributes :=
      if 0 < w.attributes.length then buildSQSAttributes w.attributes else [] }

/-- Close (src/sqs/topic.go lines 105-127). The parameter sendResult is the
error returned by the SendMessageWithContext call issued by this Close, with
none for success. Returns the updated writer, the error Close returns, and
the list of send calls issued by this invocation. -/
def MessageWriter.Close (w : MessageWriter) (sendResult : Option String) :
    MessageWriter × Option WriterError × List SendMessageInput :=
  if w.closed then
    (w, some .errClosedMessageWriter, [])
  else
    ({ w with closed := true }, sendResult.map .sendError, [w.sendParams])

/-- delayClamp: the value stored by SetDelay (src/sqs/topic.go line 132),
int64 of min of max of delay.Seconds and 0, and 900 — with the duration as a
nanosecond integer and Seconds as exact rational division. -/
def delayClamp (delayNs : Int) : Int :=
  ⌊min (max ((delayNs : ℚ) / 1000000000) 0) 900⌋

/-- SetDelay (src/sqs/topic.go lines 131-133). -/
def MessageWriter.SetDelay (w : MessageWriter) (delayNs : Int) : MessageWriter :=
  { w with delaySeconds := delayClamp delayNs }

/-- one operation applied to a writer: a Write call, or a Close call whose
underlying send (when one is issued) returns the given result. -/
inductive WriterOp where
  | write (p : String)
  | close (sendResult : Option String)
  deriving DecidableEq

/-- whether a writer operation is a Close call. -/
def isCloseOp : WriterOp → Bool
  | .write _ => false
  | .close _ => true

/-- runs a sequence of writer operations, collecting every send call issued
along the way. -/
def runOps : MessageWriter → List WriterOp → MessageWriter × List SendMessageInput
  | w, [] => (w, [])
  | w, .write p :: ops => runOps (w.Write p).1 ops
  | w, .close sr :: ops =>
      let step := w.Close sr
      let rest := runOps step.1 ops
      (rest.1, step.2.2 ++ rest.2)

/-- request.Request, restricted to the only field the retryer code reads:
the HTTP response status code. -/
structure Request where
  statusCode : Int
  deriving DecidableEq

/-- an AWS request.Retryer interface value: a retry decision and a backoff
delay (nanoseconds), both functions of the request. -/
structure Retryer where
  retryRules : Request → Int
  shouldRetry : Request → Bool

/-- DefaultRetryer (src/unnamed/part_000 lines 156-159): wraps another
retryer and holds a fixed delay for credential errors. -/
structure DefaultRetryer where
  wrapped : Retryer
  delay : Int

/-- RetryRules (src/unnamed/part_000 lines 162-167): the fixed delay on a
403 status, the wrapped retryer's rules otherwise. -/
def DefaultRetryer.RetryRules (r : DefaultRetryer) (req : Request) : Int :=
  if req.statusCode = 403 then r.delay else r.wrapped.retryRules req

/-- ShouldRetry (src/unnamed/part_000 lines 170-175): always true on a 403
status, the wrapped retryer's decision otherwise. -/
def DefaultRetryer.ShouldRetry (r : DefaultRetryer) (req : Request) : Bool :=
  if req.statusCode = 403 then true else r.wrapped.shouldRetry req

/-- sqs.MessageAttributeValue as received by the server: StringValue is a
possibly-nil string pointer. -/
structure SQSMessageAttributeValue where
  stringValue : Option String
  deriving DecidableEq

/-- sqs.Message, restricted to the fields Serve reads; pointer fields are
Options. -/
structure SQSMessage where
  messageId : Option String
  body : Option String
  receiptHandle : Option String
  messageAttributes : List (String × SQSMessageAttributeValue)
  deriving DecidableEq

/-- the inbound msg.Message handed to the handler: attributes and body. -/
structure InboundMessage where
  attributes : List (String × String)
  body : String
  deriving DecidableEq

/-- convertToMsgAttrs (src/unnamed/part_000 lines 41-47): dereferences each
attribute's StringValue pointer with no nil check; none models the
nil-pointer panic. -/
def convertToMsgAttrs : List (String × SQSMessageAttributeValue) →
    Option (List (String × String))
  | [] => some []
  | kv :: rest =>
      match kv.2.stringValue, convertToMsgAttrs rest with
      | some v, some attrs => some ((kv.1, v) :: attrs)
      | _, _ => none

/-- the msg.Message literal of the dispatch goroutine (src/unnamed/part_000
lines 91-94): converts the attributes and dereferences the Body pointer with
no nil check; none models the nil-pointer panic. -/
def mkInboundMessage (m : SQSMessage) : Option InboundMessage :=
  match convertToMsgAttrs m.messageAttributes, m.body with
  | some attrs, some b => some ⟨attrs, b⟩
  | _, _ => none

/-- Server configuration read on the dispatch path (src/unnamed/part_000
lines 24-38): the queue URL and the retry visibility timeout. -/
structure Server where
  queueURL : String
  retryTimeout : Int
  deriving DecidableEq

/-- an SQS call issued by the dispatch goroutine. -/
inductive SQSCall where
  | changeMessageVisibility (queueUrl : String) (receiptHandle : Option String)
      (visibilityTimeout : Int)
  | deleteMessage (queueUrl : String) (receiptHandle : Option String)
  deriving DecidableEq

/-- an observable event of the dispatch goroutine: an SQS call, or the
deferred receive on the gate channel that releases the slot. -/
inductive DispatchEvent where
  | call (c : SQSCall)
  | releaseSlot
  deriving DecidableEq

/-- events of the dispatch goroutine (src/unnamed/part_000 lines 86-116)
after the message is built: on a handler error, one ChangeMessageVisibility
with the configured retry timeout and then the deferred slot release; on
handler success, one DeleteMessage — whose own error is only logged (lines
112-114) — and then the deferred slot release. -/
def Server.dispatchEvents (s : Server) (receiptHandle : Option String)
    (receiveResult : Option String) (deleteResult : Option String) :
    List DispatchEvent :=
  match receiveResult with
  | some _ =>
      [.call (.changeMessageVisibility s.queueURL receiptHandle s.retryTimeout),
        .releaseSlot]
  | none =>
      match deleteResult with
      | some _ =>
          [.call (.deleteMessage s.queueURL receiptHandle), .releaseSlot]
      | none =>
          [.call (.deleteMessage s.queueURL receiptHandle), .releaseSlot]

/-- the whole dispatch goroutine (src/unnamed/part_000 lines 86-116):
constructs the inbound message — none models the nil-pointer panic — then
runs the handler and issues the resulting calls. -/
def Server.dispatch (s : Server) (handler : InboundMessage → Option String)
    (deleteResult : Option String) (m : SQSMessage) : Option (List DispatchEvent) :=
  match mkInboundMessage m with
  | none => none
  | some im => some (s.dispatchEvents m.receiptHandle (handler im) deleteResult)

/-- whether a dispatch event is the gate slot release. -/
def isReleaseSlot : DispatchEvent → Bool
  | .releaseSlot => true
  | .call _ => false

/-- whether a dispatch event is a DeleteMessage call. -/
def isDeleteCall : DispatchEvent → Bool
  | .call (.deleteMessage _ _) => true
  | _ => false

/-- whether a dispatch event is a ChangeMessageVisibility call. -/
def isVisibilityCall : DispatchEvent → Bool
  | .call (.changeMessageVisibility _ _ _) => true
  | _ => false

/-- state of the concurrency gate: acquired is the occupancy of the
maxConcurrentReceives buffered channel, running the number of dispatch
goroutines currently executing. -/
structure GateState where
  acquired : Nat
  running : Nat
  deriving DecidableEq

/-- atomic steps of the Serve loop and its goroutines against a gate channel
of capacity cap (src/unnamed/part_000 lines 83-89, 227): the loop sends into
the buffered channel before spawning, blocking while the channel is full
(acquire); each acquired slot spawns exactly one goroutine (spawn); and a
finishing goroutine's deferred channel receive releases its slot (finish). -/
inductive GateStep (cap : Nat) : GateState → GateState → Prop where
  | acquire (a r : Nat) (h : a < cap) : GateStep cap ⟨a, r⟩ ⟨a + 1, r⟩
  | spawn (a r : Nat) (h : r < a) : GateStep cap ⟨a, r⟩ ⟨a, r + 1⟩
  | finish (a r : Nat) : GateStep cap ⟨a + 1, r + 1⟩ ⟨a, r⟩

/-- gate states reachable from the initial empty gate. -/
def GateReachable (cap : Nat) (s : GateState) : Prop :=
  Relation.ReflTransGen (GateStep cap) ⟨0, 0⟩ s

/-- concurrency coercion of NewServer (src/unnamed/part_000 lines 190-193):
a requested concurrency below 1 is set to 1; the gate channel is created
with this capacity (line 227). -/
def newServerConcurrency (cl : Int) : Int :=
  if cl < 1 then 1 else cl

/-- outcome of one ReceiveMessage call. -/
inductive PollResult where
  | recvError (e : String)
  | messages (ms : List SQSMessage)
  deriving DecidableEq

/-- what one iteration of the Serve select (src/unnamed/part_000 lines
57-65) observes: the server context already done, or — in the default
branch — the outcome of the ReceiveMessage call. -/
inductive ServeObservation where
  | serverDone
  | poll (r : PollResult)
  deriving DecidableEq

/-- return value of Serve. -/
inductive ServeExit where
  | errServerClosed
  | receiveError (e : String)
  deriving DecidableEq

/-- the Serve loop (src/unnamed/part_000 lines 56-119) over a trace of
select observations: a done server context returns msg.ErrServerClosed; a
ReceiveMessage error is returned as-is; a successful batch dispatches its
messages and keeps looping. none means the loop is still running when the
trace ends. -/
def serve : List ServeObservation → Option ServeExit
  | [] => none
  | .serverDone :: _ => some .errServerClosed
  | .poll (.recvError e) :: _ => some (.receiveError e)
  | .poll (.messages _) :: rest => serve rest

/-- the caller context passed to Shutdown; err is the value of its Err
method once the context is done. -/
structure CallerCtx where
  err : String
  deriving DecidableEq

/-- what one iteration of the Shutdown select (src/unnamed/part_000 lines
137-148) observes: the caller context done, or a ticker tick together with
the gate channel occupancy it reads. -/
inductive ShutdownObservation where
  | ctxDone
  | tick (gateLen : Nat)
  deriving DecidableEq

/-- return value of Shutdown; panicked models the Go panic. -/
inductive ShutdownReturn where
  | panicked (m : String)
  | ctxError (e : String)
  | errServerClosed
  deriving DecidableEq

/-- outcome of Shutdown: its return value — none when the trace ends while
the loop is still polling — and whether the server and receiver cancel
functions were called. -/
structure ShutdownOutcome where
  ret : Option ShutdownReturn
  serverCanceled : Bool
  receiverCanceled : Bool
  deriving DecidableEq

/-- the select loop of Shutdown (src/unnamed/part_000 lines 137-148): when
the caller context is done first, cancel the receivers and return the
context's error; on a tick with an empty gate, return msg.ErrServerClosed.
The Bool records whether receiverCancelFunc was called. -/
def shutdownLoop (ctx : CallerCtx) :
    List ShutdownObservation → Option ShutdownReturn × Bool
  | [] => (none, false)
  | .ctxDone :: _ => (some (.ctxError ctx.err), true)
  | .tick n :: rest =>
      if n = 0 then (some .errServerClosed, false) else shutdownLoop ctx rest

/-- Shutdown (src/unnamed/part_000 lines 128-149): panics on a nil context;
otherwise cancels the server context and runs the poll loop. -/
def Shutdown (ctx : Option CallerCtx) (obs : List ShutdownObservation) :
    ShutdownOutcome :=
  match ctx with
  | none => ⟨some (.panicked ("context not set")), false, false⟩
  | some c =>
      let r := shutdownLoop c obs
      ⟨r.1, true, r.2⟩

/-- helper: convertToMsgAttrs succeeds exactly when every attribute value
pointer is non-nil. -/
theorem convertToMsgAttrs_isSome (l : List (String × SQSMessageAttributeValue)) :
    (convertToMsgAttrs l).isSome = true
      ↔ ∀ kv ∈ l, kv.2.stringValue.isSome = true := by
  induction l with
  | nil => simp [convertToMsgAttrs]
  | cons kv rest ih =>
      simp only [convertToMsgAttrs, List.forall_mem_cons]
      cases hv : kv.2.stringValue <;> cases hr : convertToMsgAttrs rest <;>
        first
          | (simp_all; exact ih)
          | simp_all

/-- C2: for every received message, a nil Receive result leads to exactly
one DeleteMessage call and zero ChangeMessageVisibility calls for that
receipt handle, and a Receive error leads to exactly one
ChangeMessageVisibility call carrying the configured retryTimeout and zero
DeleteMessage calls. -/
theorem dispatch_ack_or_retry (srv : Server) (rh delRes : Option String)
    (e : String) :
    ((srv.dispatchEvents rh none delRes).countP isDeleteCall = 1
      ∧ (srv.dispatchEvents rh none delRes).countP isVisibilityCall = 0
      ∧ .call (.deleteMessage srv.queueURL rh) ∈ srv.dispatchEvents rh none delRes)
    ∧ ((srv.dispatchEvents rh (some e) delRes).countP isVisibilityCall = 1
      ∧ (srv.dispatchEvents rh (some e) delRes).countP isDeleteCall = 0
      ∧ .call (.changeMessageVisibility srv.queueURL rh srv.retryTimeout)
          ∈ srv.dispatchEvents rh (some e) delRes) := by
  cases delRes <;>
    simp [Server.dispatchEvents, isDeleteCall, isVisibilityCall,
      List.countP_cons]

/-- C6: Shutdown called with a nil context panics with the message
"context not set" before canceling anything; the outcome is the
distinguished panic, not an ordinary returned error. -/
theorem shutdown_nil_context_panics (obs : List ShutdownObservation) :
    Shutdown none obs = ⟨some (.panicked ("context not set")), false, false⟩ :=
  rfl

/-- C7: on an HTTP 403 response the credential-aware DefaultRetryer forces
ShouldRetry to true and RetryRules to the fixed configured delay; on every
other status both methods delegate unchanged to the wrapped retryer. -/
theorem defaultRetryer_credential_retry (r : DefaultRetryer) (req : Request) :
    (req.statusCode = 403 →
        r.ShouldRetry req = true ∧ r.RetryRules req = r.delay)
    ∧ (req.statusCode ≠ 403 →
        r.ShouldRetry req = r.wrapped.shouldRetry req
        ∧ r.RetryRules req = r.wrapped.retryRules req) := by
  refine ⟨fun h => ?_, fun h => ?_⟩ <;>
    simp [DefaultRetryer.ShouldRetry, DefaultRetryer.RetryRules, h]

/-- witness for C7: a retryer whose wrapped policy never retries with delay
5 still retries a 403 with delay 2000000000, and delegates on a 200. -/
theorem defaultRetryer_credential_retry_witness :
    ((DefaultRetryer.mk ⟨fun _ => 5, fun _ => false⟩ 2000000000).ShouldRetry
        ⟨403⟩ = true
      ∧ (DefaultRetryer.mk ⟨fun _ => 5, fun _ => false⟩ 2000000000).RetryRules
        ⟨403⟩ = 2000000000)
    ∧ ((DefaultRetryer.mk ⟨fun _ => 5, fun _ => false⟩ 2000000000).ShouldRetry
        ⟨200⟩ = false
      ∧ (DefaultRetryer.mk ⟨fun _ => 5, fun _ => false⟩ 2000000000).RetryRules
        ⟨200⟩ = 5) :=
  ⟨(defaultRetryer_credential_retry _ ⟨403⟩).1 rfl,
   (defaultRetryer_credential_retry _ ⟨200⟩).2 (by decide)⟩

/-- C9: on Close of an open writer with a non-empty attribute map, the
single published request carries, for every attribute key, one string-typed
message attribute whose value is the comma-join of that key's values. -/
theorem close_serializes_attributes (w : MessageWriter) (r : Option String)
    (k : String) (v : List String)
    (hopen : w.closed = false) (hne : w.attributes ≠ []) :
    (w.Close r).2.2 = [w.sendParams]
    ∧ w.sendParams.messageAttributes
        = w.attributes.map
            (fun kv => (kv.1, ⟨"String", String.intercalate (",") kv.2⟩))
    ∧ ((k, v) ∈ w.attributes →
        (k, ⟨"String", String.intercalate (",") v⟩)
          ∈ w.sendParams.messageAttributes) := by
  have hlen : 0 < w.attributes.length := List.length_pos.mpr hne
  refine ⟨by simp [MessageWriter.Close, hopen], ?_, fun hmem => ?_⟩
  · simp [MessageWriter.sendParams, if_pos hlen, buildSQSAttributes]
  · simp only [MessageWriter.sendParams, if_pos hlen, buildSQSAttributes]
    exact List.mem_map_of_mem _ hmem

/-- witness for C9: the writer with attributes k mapped to a, b publishes
the attribute as the string a,b with DataType String. -/
theorem close_serializes_attributes_witness :
    ((MessageWriter.mk [(("k"), [("a"), ("b")])] ("hello") false 0 ("q")).Close
        none).2.2
      = [(MessageWriter.mk [(("k"), [("a"), ("b")])] ("hello") false 0
          ("q")).sendParams]
    ∧ (("k"), (⟨"String", ("a,b")⟩ : MessageAttributeValue))
        ∈ (MessageWriter.mk [(("k"), [("a"), ("b")])] ("hello") false 0
            ("q")).sendParams.messageAttributes :=
  ⟨(close_serializes_attributes
      (MessageWriter.mk [(("k"), [("a"), ("b")])] ("hello") false 0 ("q"))
      none ("k") [("a"), ("b")] rfl (by decide)).1,
   (close_serializes_attributes
      (MessageWriter.mk [(("k"), [("a"), ("b")])] ("hello") false 0 ("q"))
      none ("k") [("a"), ("b")] rfl (by decide)).2.2 (by decide)⟩

/-- C10: the per-message dispatch completes without a nil-pointer panic
exactly when the received message carries a non-nil body and every message
attribute carries a non-nil string value; under that precondition the crash
branch is unreachable, and without it the dispatch is not total. -/
theorem dispatch_total_iff_nonnil (s : Server)
    (handler : InboundMessage → Option String) (delRes : Option String)
    (m : SQSMessage) :
    (s.dispatch handler delRes m).isSome = true
      ↔ (m.body.isSome = true
          ∧ ∀ kv ∈ m.messageAttributes, kv.2.stringValue.isSome = true) := by
  rw [← convertToMsgAttrs_isSome]
  simp only [Server.dispatch, mkInboundMessage]
  cases hb : m.body <;> cases hc : convertToMsgAttrs m.messageAttributes <;>
    simp

/-- witness for C10: a message with a present body and one present
attribute value dispatches without a panic. -/
theorem dispatch_total_iff_nonnil_witness :
    ((Server.mk ("q") 30).dispatch (fun _ => none) none
        ⟨some ("id"), some ("body"), some ("rh"),
          [(("k"), ⟨some ("v")⟩)]⟩).isSome = true :=
  (dispatch_total_iff_nonnil (Server.mk ("q") 30) (fun _ => none) none
      ⟨some ("id"), some ("body"), some ("rh"), [(("k"), ⟨some ("v")⟩)]⟩).mpr
    (by decide)

/-- helper: the gate invariant — running goroutines never exceed acquired
slots, and acquired slots never exceed the channel capacity — is preserved
by every gate step. -/
theorem gate_steps_invariant (cap : Nat) (s t : GateState)
    (h : Relation.ReflTransGen (GateStep cap) s t)
    (hs : s.running ≤ s.acquired ∧ s.acquired ≤ cap) :
    t.running ≤ t.acquired ∧ t.acquired ≤ cap := by
  induction h with
  | refl => exact hs
  | tail hab hbc ih =>
      cases hbc with
      | acquire a r hlt => exact ⟨Nat.le_succ_of_le ih.1, hlt⟩
      | spawn a r hlt => exact ⟨hlt, ih.2⟩
      | finish a r => exact ⟨Nat.le_of_succ_le_succ ih.1, Nat.le_of_succ_le ih.2⟩

/-- C1: in every state reachable by the Serve loop and its goroutines — one
gate slot acquired before each spawn — the number of simultaneously running
dispatch goroutines never exceeds the gate capacity, and every dispatch
releases its slot exactly once on each exit path, whether the handler
succeeds, fails, or the delete call errors. -/
theorem serve_gate_bounded (cap : Nat) (s : GateState) (h : GateReachable cap s)
    (srv : Server) (rh recvRes delRes : Option String) :
    s.running ≤ cap
    ∧ (srv.dispatchEvents rh recvRes delRes).countP isReleaseSlot = 1 := by
  have inv := gate_steps_invariant cap ⟨0, 0⟩ s h ⟨le_rfl, Nat.zero_le cap⟩
  refine ⟨inv.1.trans inv.2, ?_⟩
  cases recvRes <;> cases delRes <;> rfl

/-- witness for C1: with capacity 2, the state with two acquired slots and
one running goroutine is reachable and respects the bound, and a successful
dispatch releases its slot exactly once. -/
theorem serve_gate_bounded_witness :
    (GateState.mk 2 1).running ≤ 2
    ∧ ((Server.mk ("q") 30).dispatchEvents (some ("rh")) none none).countP
        isReleaseSlot = 1 :=
  serve_gate_bounded 2 ⟨2, 1⟩
    (Relation.ReflTransGen.tail
      (Relation.ReflTransGen.tail
        (Relation.ReflTransGen.single (GateStep.acquire 0 0 (by decide)))
        (GateStep.spawn 1 0 (by decide)))
      (GateStep.acquire 1 1 (by decide)))
    (Server.mk ("q") 30) (some ("rh")) none none

/-- helper: when a tick with an empty gate comes before any caller-context
cancellation and before any other empty-gate tick, the Shutdown loop returns
msg.ErrServerClosed without calling receiverCancelFunc. -/
theorem shutdownLoop_gate_empty (c : CallerCtx)
    (pre rest : List ShutdownObservation)
    (h : ∀ o ∈ pre, o ≠ .ctxDone ∧ o ≠ .tick 0) :
    shutdownLoop c (pre ++ .tick 0 :: rest) = (some .errServerClosed, false) := by
  induction pre with
  | nil => rfl
  | cons o pre ih =>
      obtain ⟨h1, h2⟩ := h o (List.mem_cons_self o pre)
      cases o with
      | ctxDone => exact absurd rfl h1
      | tick n =>
          have hn : n ≠ 0 := fun hn0 => h2 (by rw [hn0])
          simp only [List.cons_append, shutdownLoop, if_neg hn]
          exact ih fun o ho => h o (List.mem_cons_of_mem _ ho)

/-- helper: when the caller context becomes done before any tick observes an
empty gate, the Shutdown loop calls receiverCancelFunc and returns the
context's own error. -/
theorem shutdownLoop_ctx_first (c : CallerCtx)
    (pre rest : List ShutdownObservation)
    (h : ∀ o ∈ pre, o ≠ .tick 0) :
    shutdownLoop c (pre ++ .ctxDone :: rest) = (some (.ctxError c.err), true) := by
  induction pre with
  | nil => rfl
  | cons o pre ih =>
      cases o with
      | ctxDone => rfl
      | tick n =>
          have hn : n ≠ 0 :=
            fun hn0 => (h _ (List.mem_cons_self _ _)) (by rw [hn0])
          simp only [List.cons_append, shutdownLoop, if_neg hn]
          exact ih fun o ho => h o (List.mem_cons_of_mem _ ho)

/-- C3: Shutdown always cancels the server lifetime first; when the gate
empties before the caller's context is done it returns msg.ErrServerClosed
and never cancels the receiver lifetime, while when the caller's context is
done first it cancels the receiver lifetime and returns that context's own
error; and Serve returns msg.ErrServerClosed when it observes the server
lifetime canceled. -/
theorem shutdown_two_phase (c : CallerCtx)
    (pre rest : List ShutdownObservation) (obs2 : List ServeObservation) :
    ((∀ o ∈ pre, o ≠ .ctxDone ∧ o ≠ .tick 0) →
        Shutdown (some c) (pre ++ .tick 0 :: rest)
          = ⟨some .errServerClosed, true, false⟩)
    ∧ ((∀ o ∈ pre, o ≠ .tick 0) →
        Shutdown (some c) (pre ++ .ctxDone :: rest)
          = ⟨some (.ctxError c.err), true, true⟩)
    ∧ serve (.serverDone :: obs2) = some .errServerClosed := by
  refine ⟨fun h => ?_, fun h => ?_, rfl⟩
  · simp [Shutdown, shutdownLoop_gate_empty c pre rest h]
  · simp [Shutdown, shutdownLoop_ctx_first c pre rest h]

/-- witness for C3: after one tick seeing two occupied slots, an empty-gate
tick yields the clean close without receiver cancellation, while a done
caller context yields its own error with receiver cancellation. -/
theorem shutdown_two_phase_witness :
    Shutdown (some ⟨("context deadline exceeded")⟩)
        ([.tick 2] ++ .tick 0 :: [])
      = ⟨some .errServerClosed, true, false⟩
    ∧ Shutdown (some ⟨("context deadline exceeded")⟩)
        ([.tick 2] ++ .ctxDone :: [])
      = ⟨some (.ctxError ("context deadline exceeded")), true, true⟩
    ∧ serve (.serverDone :: []) = some .errServerClosed :=
  ⟨(shutdown_two_phase ⟨("context deadline exceeded")⟩ [.tick 2] [] []).1
      (by decide),
   (shutdown_two_phase ⟨("context deadline exceeded")⟩ [.tick 2] [] []).2.1
      (by decide),
   (shutdown_two_phase ⟨("context deadline exceeded")⟩ [.tick 2] [] []).2.2⟩

/-- C4: whenever the ReceiveMessage call of an iteration returns an error —
after any number of successful batches — Serve terminates immediately with
that same error, regardless of anything that could have followed: no retry
of the receive call is performed. -/
theorem serve_receive_error_fatal (e : String)
    (pre rest : List ServeObservation)
    (h : ∀ o ∈ pre, ∃ ms, o = .poll (.messages ms)) :
    serve (pre ++ .poll (.recvError e) :: rest) = some (.receiveError e) := by
  induction pre with
  | nil => rfl
  | cons o pre ih =>
      obtain ⟨ms, rfl⟩ := h o (List.mem_cons_self o pre)
      exact ih fun o ho => h o (List.mem_cons_of_mem _ ho)

/-- witness for C4: one successful empty batch, then a receive error ends
the loop with that error even though another observation was available. -/
theorem serve_receive_error_fatal_witness :
    serve ([.poll (.messages [])] ++ .poll (.recvError ("boom")) :: [.serverDone])
      = some (.receiveError ("boom")) :=
  serve_receive_error_fatal ("boom") [.poll (.messages [])] [.serverDone]
    (by
      intro o ho
      simp only [List.mem_singleton] at ho
      exact ⟨[], ho⟩)

/-- helper: once a writer is closed, running any further operations issues
no send call and leaves the writer unchanged. -/
theorem runOps_closed_no_sends (w : MessageWriter) (ops : List WriterOp)
    (h : w.closed = true) :
    (runOps w ops).2 = [] ∧ (runOps w ops).1 = w := by
  induction ops with
  | nil => exact ⟨rfl, rfl⟩
  | cons op ops ih =>
      cases op with
      | write p =>
          simpa [runOps, MessageWriter.Write, h] using ih
      | close sr =>
          simpa [runOps, MessageWriter.Close, h] using ih

/-- helper: from an open writer, a sequence of operations issues exactly one
send call when it contains a Close and none otherwise. -/
theorem runOps_open_sends (w : MessageWriter) (ops : List WriterOp)
    (h : w.closed = false) :
    (runOps w ops).2.length = if ops.any isCloseOp then 1 else 0 := by
  induction ops generalizing w with
  | nil => simp [runOps]
  | cons op ops ih =>
      cases op with
      | write p =>
          have hw : ((w.Write p).1).closed = false := by
            simp [MessageWriter.Write, h]
          simpa [runOps, isCloseOp] using ih (w.Write p).1 hw
      | close sr =>
          have hw : ((w.Close sr).1).closed = true := by
            simp [MessageWriter.Close, h]
          have hsends : (w.Close sr).2.2 = [w.sendParams] := by
            simp [MessageWriter.Close, h]
          simp [runOps, isCloseOp, hsends,
            (runOps_closed_no_sends (w.Close sr).1 ops hw).1]

/-- C5: the first Close of an open writer issues exactly one send call and
returns the send outcome verbatim while marking the writer closed even on a
send failure; any Write or Close on a closed writer returns
msg.ErrClosedMessageWriter without issuing a send; and across any operation
sequence on a fresh writer exactly one send call is issued when the
sequence contains a Close, none otherwise. -/
theorem writer_single_send (w : MessageWriter) (p : String) (r : Option String)
    (ops : List WriterOp) (url : String) :
    (w.closed = false →
        (w.Close r).2.2 = [w.sendParams]
        ∧ (w.Close r).2.1 = r.map .sendError
        ∧ ((w.Close r).1).closed = true)
    ∧ (w.closed = true →
        w.Close r = (w, some .errClosedMessageWriter, [])
        ∧ w.Write p = (w, 0, some .errClosedMessageWriter))
    ∧ (runOps (NewWriter url) ops).2.length
        = if ops.any isCloseOp then 1 else 0 := by
  refine ⟨fun h => ?_, fun h => ?_, ?_⟩
  · simp [MessageWriter.Close, h]
  · simp [MessageWriter.Close, MessageWriter.Write, h]
  · exact runOps_open_sends (NewWriter url) ops rfl

/-- witness for C5: closing a fresh writer with a failing send returns the
send error verbatim and leaves the writer closed, and a sequence with two
Close attempts and surrounding writes issues exactly one send. -/
theorem writer_single_send_witness :
    (((NewWriter ("q")).Close (some ("boom"))).2.2 = [(NewWriter ("q")).sendParams]
      ∧ ((NewWriter ("q")).Close (some ("boom"))).2.1
          = (some ("boom")).map .sendError
      ∧ (((NewWriter ("q")).Close (some ("boom"))).1).closed = true)
    ∧ (((NewWriter ("q")).Close none).1.Close (some ("z"))
          = (((NewWriter ("q")).Close none).1, some .errClosedMessageWriter, [])
        ∧ ((NewWriter ("q")).Close none).1.Write ("b")
          = (((NewWriter ("q")).Close none).1, 0, some .errClosedMessageWriter))
    ∧ (runOps (NewWriter ("q"))
          [.write ("a"), .close none, .close (some ("z")), .write ("b")]).2.length
        = if ([WriterOp.write ("a"), .close none, .close (some ("z")),
              .write ("b")].any isCloseOp) then 1 else 0 :=
  ⟨(writer_single_send (NewWriter ("q")) ("x") (some ("boom")) [] ("q")).1 rfl,
   (writer_single_send ((NewWriter ("q")).Close none).1 ("b") (some ("z"))
      [] ("q")).2.1 rfl,
   (writer_single_send (NewWriter ("q")) ("x") none
      [.write ("a"), .close none, .close (some ("z")), .write ("b")] ("q")).2.2⟩

/-- C8: SetDelay stores the delay-seconds value clamped to the range 0 to
900 — a seconds value below 0 stores 0, one above 900 stores 900 — and the
stored value is exactly the DelaySeconds of the request published by
Close. -/
theorem setDelay_clamps (d : Int) (w : MessageWriter) (r : Option String) :
    ((d : ℚ) / 1000000000 < 0 → delayClamp d = 0)
    ∧ (900 < (d : ℚ) / 1000000000 → delayClamp d = 900)
    ∧ (0 ≤ delayClamp d ∧ delayClamp d ≤ 900)
    ∧ (w.closed = false →
        ((w.SetDelay d).Close r).2.2 = [(w.SetDelay d).sendParams]
        ∧ (w.SetDelay d).sendParams.delaySeconds = delayClamp d) := by
  refine ⟨fun h => ?_, fun h => ?_, ⟨?_, ?_⟩, fun h => ?_⟩
  · rw [delayClamp, max_eq_right h.le, min_eq_left (by norm_num : (0 : ℚ) ≤ 900)]
    exact Int.floor_zero
  · rw [delayClamp, max_eq_left ((by norm_num : (0 : ℚ) < 900).trans h).le,
      min_eq_right h.le]
    norm_num
  · exact Int.le_floor.mpr (by
      push_cast
      exact le_min (le_max_right _ _) (by norm_num))
  · calc ⌊min (max ((d : ℚ) / 1000000000) 0) 900⌋
        ≤ ⌊(900 : ℚ)⌋ := Int.floor_le_floor (min_le_right _ _)
      _ = 900 := by norm_num
  · exact ⟨by simp [MessageWriter.SetDelay, MessageWriter.Close, h], rfl⟩

/-- witness for C8: minus five seconds stores 0, one thousand seconds
stores 900, and that stored value is the DelaySeconds of the closed
writer's published request. -/
theorem setDelay_clamps_witness :
    delayClamp (-5000000000) = 0
    ∧ delayClamp 1000000000000 = 900
    ∧ (((NewWriter ("q")).SetDelay 1000000000000).Close none).2.2
        = [((NewWriter ("q")).SetDelay 1000000000000).sendParams]
    ∧ ((NewWriter ("q")).SetDelay 1000000000000).sendParams.delaySeconds
        = delayClamp 1000000000000 :=
  ⟨(setDelay_clamps (-5000000000) (NewWriter ("q")) none).1 (by norm_num),
   (setDelay_clamps 1000000000000 (NewWriter ("q")) none).2.1 (by norm_num),
   ((setDelay_clamps 1000000000000 (NewWriter ("q")) none).2.2.2 rfl).1,
   ((setDelay_clamps 1000000000000 (NewWriter ("q")) none).2.2.2 rfl).2⟩

end GoAwsMsg
